import Mathlib

/-!
Verification of the virtual try-on overlay renderer (`app.js`).

The development shallowly embeds the numeric core of the source file:
landmark geometry utilities, the reference calibrator (`onResults`), the
scale-factor functions, the overlay fitting engine
(`calculateOverlayPosition`), the orientation smoothing of
`calculateFaceRotation`, the lighting estimator (`analyzeLighting`) and the
temperature-tint decision of `drawRotatedOverlay`, together with the
state-resetting transition `resetToCamera`.

Numbers are modelled as rationals (idealised real arithmetic for the
source's IEEE doubles).  JavaScript `null`/`undefined` becomes `Option`,
a thrown `TypeError` becomes `Except.error`, and the mutable module-level
variables become an explicit `AppState` record threaded through the
functions that read or write them.  DOM, camera, and canvas-rendering
calls are outside the embedding (the spec declares them external
collaborators); the lighting estimator is embedded from the point where
the sampled pixel buffer is in hand.
-/

deriving instance DecidableEq for Except

namespace VirtualTryOn

/-- A 2D point, used both for normalized landmarks (coordinates in [0,1])
and for pixel-space points. -/
structure Point where
  x : ℚ
  y : ℚ
deriving DecidableEq

/-- Models `Math.sqrt` on the nonnegative rationals the source feeds it
(sums of squares).  It is exact whenever the argument is the square of a
rational — which covers every concrete evaluation in this file — and no
theorem below depends on its value elsewhere.  Negative arguments (never
produced by the source) map to 0. -/
def jsSqrt (q : ℚ) : ℚ := (Nat.sqrt q.num.toNat : ℚ) / (Nat.sqrt q.den : ℚ)

/-- Models the JavaScript array read `landmarks[index]` for an integer
index: `undefined` (here `none`) when the index is negative or beyond the
end of the array. -/
def jsArrayGet (lm : List Point) (index : ℤ) : Option Point :=
  if index < 0 then none else lm[index.toNat]?

/-- Embedding of `getLandmark(landmarks, index, canvasWidth, canvasHeight)`
(app.js lines 189–195) at an arbitrary integer index.  The source guards
only `!landmarks || index >= landmarks.length`; for a negative index the
guard passes, `landmarks[index]` is `undefined`, and the member access
`.x` throws a `TypeError` — modelled by `Except.error ()`. -/
def getLandmark (landmarks : Option (List Point)) (index : ℤ)
    (canvasWidth canvasHeight : ℚ) : Except Unit (Option Point) :=
  match landmarks with
  | none => Except.ok none
  | some lm =>
      if (lm.length : ℤ) ≤ index then Except.ok none
      else
        match jsArrayGet lm index with
        | some p => Except.ok (some ⟨p.x * canvasWidth, p.y * canvasHeight⟩)
        | none => Except.error ()

/-- `getLandmark` restricted to natural-number indices, the only indices
the source ever passes (the constants 1, 10, 33, 133, 175, 234, 263, 362,
454).  On these indices the function never throws, so the rest of the
pipeline uses this total restriction; `getLandmark_ofNat` proves the two
agree. -/
def getLandmarkNat (landmarks : Option (List Point)) (index : ℕ)
    (canvasWidth canvasHeight : ℚ) : Option Point :=
  match landmarks with
  | none => none
  | some lm =>
      match lm[index]? with
      | some p => some ⟨p.x * canvasWidth, p.y * canvasHeight⟩
      | none => none

/-- On natural-number indices the throwing embedding and the total
restriction coincide. -/
theorem getLandmark_ofNat (landmarks : Option (List Point)) (index : ℕ)
    (cw ch : ℚ) :
    getLandmark landmarks (index : ℤ) cw ch =
      Except.ok (getLandmarkNat landmarks index cw ch) := by
  cases landmarks with
  | none => rfl
  | some lm =>
      simp only [getLandmark, getLandmarkNat, jsArrayGet]
      by_cases h : lm.length ≤ index
      · rw [if_pos (by exact_mod_cast h), List.getElem?_eq_none h]
      · rw [if_neg (by exact_mod_cast h), if_neg (by omega),
          Int.toNat_ofNat]
        push_neg at h
        rw [List.getElem?_eq_getElem h]

/-- Embedding of `calculateDistance(p1, p2)` (app.js lines 197–201):
Euclidean distance, 0 when either point is null. -/
def calculateDistance (p1 p2 : Option Point) : ℚ :=
  match p1, p2 with
  | some a, some b => jsSqrt ((b.x - a.x) ^ 2 + (b.y - a.y) ^ 2)
  | _, _ => 0

/-- Axis-aligned face bounding box, as returned by `calculateFaceBox`. -/
structure FaceBox where
  x : ℚ
  y : ℚ
  width : ℚ
  height : ℚ
deriving DecidableEq

/-- Embedding of `calculateFaceBox(landmarks, width, height)`
(app.js lines 543–562): one pass tracking running min/max of the scaled
coordinates, initialised to `minX = width, maxX = 0, minY = height,
maxY = 0`. -/
def calculateFaceBox (lm : List Point) (width height : ℚ) : FaceBox :=
  let st := lm.foldl
    (fun (acc : ℚ × ℚ × ℚ × ℚ) p =>
      let px := p.x * width
      let py := p.y * height
      (min acc.1 px, max acc.2.1 px, min acc.2.2.1 py, max acc.2.2.2 py))
    (width, 0, height, 0)
  { x := st.1, y := st.2.2.1, width := st.2.1 - st.1,
    height := st.2.2.2 - st.2.2.1 }

/-- The dimensions of a loaded overlay `Image`. -/
structure OverlayImage where
  width : ℚ
  height : ℚ
deriving DecidableEq

/-- Smoothed face rotation angles `{roll, pitch, yaw}` in radians. -/
structure Rotation where
  roll : ℚ
  pitch : ℚ
  yaw : ℚ
deriving DecidableEq

/-- The mutable module-level state of app.js that the embedded functions
read or write: canvas dimensions, the selected overlay
(`overlaySrc`/`overlayType`/`overlayImg` and its user sliders), the mode
flag, the last detection result, the smoothed rotation, and the three
calibration references (lines 2–17). -/
structure AppState where
  canvasWidth : ℚ
  canvasHeight : ℚ
  overlaySrc : String
  overlayType : String
  overlayImg : Option OverlayImage
  overlayScale : ℚ
  overlayOffsetY : ℚ
  isUsingUploadedImage : Bool
  detectedLandmarks : Option (List Point)
  faceRotation : Rotation
  referenceFaceSize : Option ℚ
  referenceEyeDistance : Option ℚ
  referenceFaceWidth : Option ℚ
deriving DecidableEq

/-- The IEEE-754 double value of `Math.PI`, as an exact rational. -/
def piQ : ℚ := 884279719003555 / 281474976710656

/-- Computable stand-in for the transcendental `Math.atan2`.  Its outputs
only ever flow into the stored rotation angles, and no claim in this file
depends on its values, so it is modelled by a simple bounded odd rational
map that, like `atan2`, is zero when the first argument is zero. -/
def atan2Q (y x : ℚ) : ℚ := if x = 0 ∧ y = 0 then 0 else y / (|x| + |y|)

/-- The smoothing factor of `calculateFaceRotation` (app.js line 273). -/
def smoothingFactor : ℚ := 7/10

/-- One smoothing update of a rotation axis (app.js lines 278–280):
`new = prev * smoothingFactor + raw * (1 - smoothingFactor)`. -/
def smoothAxis (prev raw : ℚ) : ℚ :=
  prev * smoothingFactor + raw * (1 - smoothingFactor)

/-- The raw (pre-smoothing) roll/pitch/yaw computed by
`calculateFaceRotation` (app.js lines 207–270) from the landmark set:
roll from the outer-eye angle, pitch in two stages with the second
overwriting the first, yaw from nose-to-cheek asymmetry; any missing
required points leave that axis's raw value at 0. -/
def rawRotation (s : AppState) (lm : List Point) : Rotation :=
  let cw := s.canvasWidth
  let ch := s.canvasHeight
  let leftEyeOuter := getLandmarkNat (some lm) 33 cw ch
  let rightEyeOuter := getLandmarkNat (some lm) 263 cw ch
  let forehead := getLandmarkNat (some lm) 10 cw ch
  let chin := getLandmarkNat (some lm) 175 cw ch
  let noseTip := getLandmarkNat (some lm) 1 cw ch
  let leftCheek := getLandmarkNat (some lm) 234 cw ch
  let rightCheek := getLandmarkNat (some lm) 454 cw ch
  let roll :=
    match leftEyeOuter, rightEyeOuter with
    | some l, some r => atan2Q (r.y - l.y) (r.x - l.x)
    | _, _ => 0
  let pitch :=
    match forehead, chin, noseTip with
    | some f, some c, some n =>
        let verticalDistance := c.y - f.y
        let faceCenterX :=
          match leftCheek, rightCheek with
          | some lc, some rc => (lc.x + rc.x) / 2
          | _, _ => n.x
        let horizontalDistance := |n.x - faceCenterX|
        let pitchStage1 :=
          if 0 < verticalDistance then
            atan2Q horizontalDistance verticalDistance * (3/10)
          else 0
        let eyeLevel :=
          match leftEyeOuter, rightEyeOuter with
          | some l, some r => (l.y + r.y) / 2
          | _, _ => n.y
        let faceHeight := c.y - f.y
        let noseOffset := n.y - eyeLevel
        if 0 < faceHeight then (noseOffset / faceHeight) * piQ * (1/5)
        else pitchStage1
    | _, _, _ => 0
  let yaw :=
    match leftCheek, rightCheek, noseTip with
    | some lc, some rc, some n =>
        let leftDistance := calculateDistance (some n) (some lc)
        let rightDistance := calculateDistance (some n) (some rc)
        let totalWidth := leftDistance + rightDistance
        if 0 < totalWidth then
          ((rightDistance - leftDistance) / totalWidth) * piQ * (3/10)
        else 0
    | _, _, _ => 0
  ⟨roll, pitch, yaw⟩

/-- Embedding of `calculateFaceRotation(landmarks)` (app.js lines
204–283): `{0,0,0}` for a landmark set with fewer than 468 points,
otherwise each raw axis smoothed against the previously stored
`faceRotation` with factor 0.7. -/
def calculateFaceRotation (s : AppState) (lm : List Point) : Rotation :=
  if lm.length < 468 then ⟨0, 0, 0⟩
  else
    let raw := rawRotation s lm
    ⟨smoothAxis s.faceRotation.roll raw.roll,
     smoothAxis s.faceRotation.pitch raw.pitch,
     smoothAxis s.faceRotation.yaw raw.yaw⟩

/-- The sequence of smoothed values produced by repeatedly applying the
axis-smoothing update to a constant raw input, starting from `x0`. -/
def smoothSeq (x0 raw : ℚ) : ℕ → ℚ
  | 0 => x0
  | n + 1 => smoothAxis (smoothSeq x0 raw n) raw

/-- JavaScript truthiness of a stored reference measurement: `null` and
`0` are both falsy (`!referenceEyeDistance` in the source). -/
def refUnset (o : Option ℚ) : Bool :=
  match o with
  | none => true
  | some q => q == 0

/-- The pixel-space left outer eye corner (landmark 33) of the currently
detected landmarks. -/
def leftEyePoint (s : AppState) : Option Point :=
  getLandmarkNat s.detectedLandmarks 33 s.canvasWidth s.canvasHeight

/-- The pixel-space right outer eye corner (landmark 263). -/
def rightEyePoint (s : AppState) : Option Point :=
  getLandmarkNat s.detectedLandmarks 263 s.canvasWidth s.canvasHeight

/-- The pixel-space left temple/cheek (landmark 234). -/
def faceLeftPoint (s : AppState) : Option Point :=
  getLandmarkNat s.detectedLandmarks 234 s.canvasWidth s.canvasHeight

/-- The pixel-space right temple/cheek (landmark 454). -/
def faceRightPoint (s : AppState) : Option Point :=
  getLandmarkNat s.detectedLandmarks 454 s.canvasWidth s.canvasHeight

/-- `Math.max(lo, Math.min(hi, v))` as the source writes its clamps. -/
def clampQ (lo hi v : ℚ) : ℚ := max lo (min hi v)

/-- Embedding of `calculateEyeDistanceScale()` (app.js lines 286–303):
1.0 when the eye-distance reference is falsy (null or 0), when no
landmarks are detected, or when either outer eye corner is unavailable;
otherwise the current/reference ratio clamped to [0.4, 2.5]. -/
def calculateEyeDistanceScale (s : AppState) : ℚ :=
  match s.referenceEyeDistance, s.detectedLandmarks with
  | some r, some _ =>
      if r = 0 then 1
      else
        match leftEyePoint s, rightEyePoint s with
        | some le, some re =>
            clampQ (2/5) (5/2) (calculateDistance (some le) (some re) / r)
        | _, _ => 1
  | _, _ => 1

/-- Embedding of `calculateFaceWidthScale()` (app.js lines 306–323):
as the eye-distance scale but measured between the temples
(landmarks 234 and 454) against `referenceFaceWidth`. -/
def calculateFaceWidthScale (s : AppState) : ℚ :=
  match s.referenceFaceWidth, s.detectedLandmarks with
  | some r, some _ =>
      if r = 0 then 1
      else
        match faceLeftPoint s, faceRightPoint s with
        | some fl, some fr =>
            clampQ (2/5) (5/2) (calculateDistance (some fl) (some fr) / r)
        | _, _ => 1
  | _, _ => 1

/-- The current face-box diagonal `sqrt(width² + height²)` used by the
distance scale and by the reference calibrator. -/
def currentFaceSizeOf (s : AppState) (lm : List Point) : ℚ :=
  let faceBox := calculateFaceBox lm s.canvasWidth s.canvasHeight
  jsSqrt (faceBox.width * faceBox.width + faceBox.height * faceBox.height)

/-- Embedding of `calculateDistanceScale()` (app.js lines 326–337): 1.0
when the face-size reference is falsy or no landmarks are detected,
otherwise the INVERTED ratio reference/current clamped to [0.5, 2.0]. -/
def calculateDistanceScale (s : AppState) : ℚ :=
  match s.referenceFaceSize, s.detectedLandmarks with
  | some r, some lm =>
      if r = 0 then 1
      else clampQ (1/2) 2 (r / currentFaceSizeOf s lm)
  | _, _ => 1

/-- The `smartFittingMultipliers` table with its `|| 1.0` default
(app.js lines 375–381). -/
def smartFittingMultiplier (type : String) : ℚ :=
  if type = "glasses" then 11/5
  else if type = "hat" then 8/5
  else if type = "shirt" then 12/5
  else 1

/-- A fitted placement: rectangle plus rotation pivot. -/
structure Placement where
  x : ℚ
  y : ℚ
  width : ℚ
  height : ℚ
  centerX : ℚ
  centerY : ℚ
deriving DecidableEq

/-- The shared return statement of `calculateOverlayPosition` (app.js
lines 536–540): `centerX || x + width/2` makes a zero (falsy) center fall
back to the geometric center of the rectangle. -/
def mkPlacement (x y width height centerX centerY : ℚ) : Placement :=
  { x := x, y := y, width := width, height := height,
    centerX := if centerX = 0 then x + width / 2 else centerX,
    centerY := if centerY = 0 then y + height / 2 else centerY }

/-- Embedding of `calculateOverlayPosition(type, landmarks, imgWidth,
imgHeight)` (app.js lines 365–541), the Overlay Fitting Engine.  Null
when the landmarks are absent or the type is falsy/unrecognized;
otherwise the per-category anchor computation with its documented
fallback chain.  The scale-factor helpers read the module state `s`
(the source reads the globals `detectedLandmarks`,
`referenceEyeDistance`, …), exactly as the source does. -/
def calculateOverlayPosition (s : AppState) (type : String)
    (landmarks : Option (List Point)) (imgWidth imgHeight : ℚ) :
    Option Placement :=
  match landmarks with
  | none => none
  | some lm =>
      if type = "" then none
      else
        let cw := s.canvasWidth
        let ch := s.canvasHeight
        let faceBox := calculateFaceBox lm cw ch
        let fittingMultiplier := smartFittingMultiplier type
        if type = "glasses" then
          match getLandmarkNat (some lm) 33 cw ch,
                getLandmarkNat (some lm) 263 cw ch with
          | some leftEye, some rightEye =>
              let eyeDistance := calculateDistance (some leftEye) (some rightEye)
              let eyeScale := calculateEyeDistanceScale s
              let width := eyeDistance * fittingMultiplier * s.overlayScale * eyeScale
              let centerX := (leftEye.x + rightEye.x) / 2
              let eyeCenterY :=
                match getLandmarkNat (some lm) 133 cw ch,
                      getLandmarkNat (some lm) 362 cw ch with
                | some leftEyeInner, some rightEyeInner =>
                    ((leftEye.y + leftEyeInner.y) / 2 +
                     (rightEye.y + rightEyeInner.y) / 2) / 2
                | _, _ => (leftEye.y + rightEye.y) / 2
              let centerY := eyeCenterY
              let height := (imgHeight / imgWidth) * width
              let x := centerX - width / 2
              let y := centerY - height * (9/20) + ch * s.overlayOffsetY
              some (mkPlacement x y width height centerX centerY)
          | _, _ =>
              let fallbackScale := calculateDistanceScale s
              let width := faceBox.width * (3/5) * fittingMultiplier *
                s.overlayScale * fallbackScale
              let height := (imgHeight / imgWidth) * width
              let centerX := faceBox.x + faceBox.width / 2
              let centerY := faceBox.y + faceBox.height * (1/4)
              let x := centerX - width / 2
              let y := centerY - height * (1/2) + ch * s.overlayOffsetY
              some (mkPlacement x y width height centerX centerY)
        else if type = "hat" then
          match getLandmarkNat (some lm) 234 cw ch,
                getLandmarkNat (some lm) 454 cw ch with
          | some faceLeft, some faceRight =>
              let faceWidth := calculateDistance (some faceLeft) (some faceRight)
              let faceScale := calculateFaceWidthScale s
              let width := faceWidth * fittingMultiplier * s.overlayScale * faceScale
              let height := (imgHeight / imgWidth) * width
              match getLandmarkNat (some lm) 10 cw ch with
              | some forehead =>
                  let centerX := (faceLeft.x + faceRight.x) / 2
                  let centerY := forehead.y
                  let x := centerX - width / 2
                  let y := forehead.y - height * (3/4) + ch * s.overlayOffsetY
                  some (mkPlacement x y width height centerX centerY)
              | none =>
                  match getLandmarkNat (some lm) 33 cw ch,
                        getLandmarkNat (some lm) 263 cw ch with
                  | some leftEye, some rightEye =>
                      let eyeMidpointY := (leftEye.y + rightEye.y) / 2
                      let centerX := (faceLeft.x + faceRight.x) / 2
                      let centerY := eyeMidpointY - faceBox.height * (3/20)
                      let x := centerX - width / 2
                      let y := centerY - height * (3/4) + ch * s.overlayOffsetY
                      some (mkPlacement x y width height centerX centerY)
                  | _, _ =>
                      let centerX := faceBox.x + faceBox.width / 2
                      let centerY := faceBox.y
                      let x := centerX - width / 2
                      let y := faceBox.y - height * (7/10) + ch * s.overlayOffsetY
                      some (mkPlacement x y width height centerX centerY)
          | _, _ =>
              let fallbackScale := calculateDistanceScale s
              let width := faceBox.width * fittingMultiplier *
                s.overlayScale * fallbackScale
              let height := (imgHeight / imgWidth) * width
              let centerX := faceBox.x + faceBox.width / 2
              let centerY := faceBox.y
              let x := centerX - width / 2
              let y := faceBox.y - height * (7/10) + ch * s.overlayOffsetY
              some (mkPlacement x y width height centerX centerY)
        else if type = "shirt" then
          match getLandmarkNat (some lm) 234 cw ch,
                getLandmarkNat (some lm) 454 cw ch with
          | some jawLeft, some jawRight =>
              let jawWidth := calculateDistance (some jawLeft) (some jawRight)
              let faceScale := calculateFaceWidthScale s
              let width := jawWidth * fittingMultiplier * s.overlayScale * faceScale
              let height := (imgHeight / imgWidth) * width
              match getLandmarkNat (some lm) 175 cw ch with
              | some chin =>
                  let centerX := (jawLeft.x + jawRight.x) / 2
                  let centerY := chin.y
                  let x := centerX - width / 2
                  let y := chin.y - height * (1/4) + ch * s.overlayOffsetY
                  some (mkPlacement x y width height centerX centerY)
              | none =>
                  match getLandmarkNat (some lm) 1 cw ch with
                  | some noseTip =>
                      let centerX := (jawLeft.x + jawRight.x) / 2
                      let centerY := noseTip.y + faceBox.height * (3/10)
                      let x := centerX - width / 2
                      let y := centerY - height * (1/4) + ch * s.overlayOffsetY
                      some (mkPlacement x y width height centerX centerY)
                  | none =>
                      let centerX := faceBox.x + faceBox.width / 2
                      let centerY := faceBox.y + faceBox.height * (3/5)
                      let x := centerX - width / 2
                      let y := faceBox.y + faceBox.height * (3/5) +
                        ch * s.overlayOffsetY
                      some (mkPlacement x y width height centerX centerY)
          | _, _ =>
              let fallbackScale := calculateDistanceScale s
              let width := faceBox.width * fittingMultiplier *
                s.overlayScale * fallbackScale
              let height := (imgHeight / imgWidth) * width
              let centerX := faceBox.x + faceBox.width / 2
              let centerY := faceBox.y + faceBox.height * (3/5)
              let x := centerX - width / 2
              let y := faceBox.y + faceBox.height * (3/5) +
                ch * s.overlayOffsetY
              some (mkPlacement x y width height centerX centerY)
        else none

/-- Embedding of the detection callback `onResults(results)` (app.js
lines 93–147), restricted to the state it mutates (status text and the
redraw are external).  With a face present it stores the landmarks,
smooths the rotation, and captures each calibration reference that is
still falsy (null or 0); with no face it clears the landmarks and all
three references. -/
def onResults (s : AppState) (results : Option (List Point)) : AppState :=
  match results with
  | some lm =>
      let s1 : AppState :=
        { s with
          detectedLandmarks := some lm
          faceRotation := calculateFaceRotation s lm }
      let cw := s.canvasWidth
      let ch := s.canvasHeight
      let s2 : AppState :=
        match getLandmarkNat (some lm) 33 cw ch,
              getLandmarkNat (some lm) 263 cw ch with
        | some leftEye, some rightEye =>
            if refUnset s1.referenceEyeDistance then
              { s1 with referenceEyeDistance := some (calculateDistance (some leftEye) (some rightEye)) }
            else s1
        | _, _ => s1
      let s3 : AppState :=
        match getLandmarkNat (some lm) 234 cw ch,
              getLandmarkNat (some lm) 454 cw ch with
        | some faceLeft, some faceRight =>
            if refUnset s2.referenceFaceWidth then
              { s2 with referenceFaceWidth := some (calculateDistance (some faceLeft) (some faceRight)) }
            else s2
        | _, _ => s2
      if refUnset s3.referenceFaceSize then
        { s3 with referenceFaceSize := some (currentFaceSizeOf s lm) }
      else s3
  | none =>
      { s with
        detectedLandmarks := none
        referenceFaceSize := none
        referenceEyeDistance := none
        referenceFaceWidth := none }

/-- One sampled pixel (a byte triple from the `getImageData` buffer). -/
structure RGB where
  r : ℕ
  g : ℕ
  b : ℕ
deriving DecidableEq

/-- The per-pixel luminance `0.299 R + 0.587 G + 0.114 B`
(app.js line 606). -/
def luminance (p : RGB) : ℚ :=
  (299/1000) * (p.r : ℚ) + (587/1000) * (p.g : ℚ) + (114/1000) * (p.b : ℚ)

/-- Running sum of the red channel over the sampled pixels. -/
def totalR (pixels : List RGB) : ℚ :=
  pixels.foldl (fun acc p => acc + (p.r : ℚ)) 0

/-- Running sum of the green channel. -/
def totalG (pixels : List RGB) : ℚ :=
  pixels.foldl (fun acc p => acc + (p.g : ℚ)) 0

/-- Running sum of the blue channel. -/
def totalB (pixels : List RGB) : ℚ :=
  pixels.foldl (fun acc p => acc + (p.b : ℚ)) 0

/-- Running maximum of luminance, initialised to 0 (app.js line 595). -/
def maxLuminance (pixels : List RGB) : ℚ :=
  pixels.foldl (fun acc p => max acc (luminance p)) 0

/-- Running minimum of luminance, initialised to 255 (app.js line 596). -/
def minLuminance (pixels : List RGB) : ℚ :=
  pixels.foldl (fun acc p => min acc (luminance p)) 255

/-- Average red value of the sample. -/
def avgROf (pixels : List RGB) : ℚ := totalR pixels / (pixels.length : ℚ)

/-- Average green value of the sample. -/
def avgGOf (pixels : List RGB) : ℚ := totalG pixels / (pixels.length : ℚ)

/-- Average blue value of the sample. -/
def avgBOf (pixels : List RGB) : ℚ := totalB pixels / (pixels.length : ℚ)

/-- The red/blue balance of `analyzeLighting` (app.js line 643): the
dominant of the two average channels over their sum. -/
def colorBalanceOf (pixels : List RGB) : ℚ :=
  if avgROf pixels > avgBOf pixels then
    avgROf pixels / (avgROf pixels + avgBOf pixels)
  else
    avgBOf pixels / (avgROf pixels + avgBOf pixels)

/-- The target color temperature `4000 + colorBalance × 4000`
(app.js line 645). -/
def targetTemperatureOf (pixels : List RGB) : ℚ :=
  4000 + colorBalanceOf pixels * 4000

/-- The lighting state `{brightness, contrast, saturation, temperature}`
(the `enabled` flag is orthogonal to the analysis arithmetic). -/
structure Lighting where
  brightness : ℚ
  contrast : ℚ
  saturation : ℚ
  temperature : ℚ
deriving DecidableEq

/-- The initial lighting state (app.js lines 20–26). -/
def initialLighting : Lighting := ⟨1, 1, 1, 6500⟩

/-- Embedding of the analysis core of `analyzeLighting` (app.js lines
593–652), from the point where the sampled pixel buffer has been read
back (the canvas downscale and region selection are rendering-surface
calls).  Returns the new `(targetLighting, lightingAnalysis)` pair; an
empty sample returns both unchanged (the `pixelCount === 0` early
return).  The source's single pixel loop accumulates independent
reductions (channel sums, luminance min/max), modelled as separate folds
over the same pixel list. -/
def analyzeLighting (pixels : List RGB)
    (targetLighting lightingAnalysis : Lighting) : Lighting × Lighting :=
  if pixels.length = 0 then (targetLighting, lightingAnalysis)
  else
    let aR := avgROf pixels
    let aG := avgGOf pixels
    let aB := avgBOf pixels
    let avgBrightness := (maxLuminance pixels + minLuminance pixels) / 2
    let contrastRange := maxLuminance pixels - minLuminance pixels
    let tBrightness := max (1/2) (min (3/2) (avgBrightness / 128))
    let tContrast := max (4/5) (min (13/10) (9/10 + (contrastRange / 128) * (2/5)))
    let colorVariance :=
      jsSqrt ((aR - avgBrightness) ^ 2 + (aG - avgBrightness) ^ 2 +
        (aB - avgBrightness) ^ 2) / 128
    let tSaturation := max (7/10) (min (13/10) (9/10 + colorVariance * (2/5)))
    let tTemperature := targetTemperatureOf pixels
    let target : Lighting := ⟨tBrightness, tContrast, tSaturation, tTemperature⟩
    let sf : ℚ := 17/20
    let smoothed : Lighting :=
      ⟨lightingAnalysis.brightness * sf + tBrightness * (1 - sf),
       lightingAnalysis.contrast * sf + tContrast * (1 - sf),
       lightingAnalysis.saturation * sf + tSaturation * (1 - sf),
       lightingAnalysis.temperature * sf + tTemperature * (1 - sf)⟩
    (target, smoothed)

/-- The temperature-tint decision of `drawRotatedOverlay` (app.js lines
775–793): with `tempRatio = (temperature − 6500)/6500`, no tint inside
the 5% deadband (`none`), a cool blue tint for a positive ratio
(`some true`), a warm orange tint otherwise (`some false`). -/
def temperatureTint (temperature : ℚ) : Option Bool :=
  let tempShift := (temperature - 6500) / 6500
  if 1/20 < |tempShift| then some (0 < tempShift) else none

/-- Embedding of `resetToCamera()` (app.js lines 1281–1302), the explicit
STILL_IMAGE → CAMERA_LIVE transition.  DOM bookkeeping (hiding the
uploaded image, button visibility, thumb deactivation) and the
`startCamera()` call are external; the state fields the function writes
are modelled exactly: it leaves uploaded-image mode, clears the overlay
selection (`overlaySrc = ''`, `overlayType = ''`, `overlayImg = null`),
and nulls the three smart-fitting references. -/
def resetToCamera (s : AppState) : AppState :=
  { s with
    isUsingUploadedImage := false
    overlaySrc := ""
    overlayType := ""
    overlayImg := none
    referenceFaceSize := none
    referenceEyeDistance := none
    referenceFaceWidth := none }

/-- A convenient all-default state used for concrete evaluations. -/
def baseState : AppState :=
  { canvasWidth := 100
    canvasHeight := 100
    overlaySrc := ""
    overlayType := ""
    overlayImg := none
    overlayScale := 1
    overlayOffsetY := 0
    isUsingUploadedImage := false
    detectedLandmarks := none
    faceRotation := ⟨0, 0, 0⟩
    referenceFaceSize := none
    referenceEyeDistance := none
    referenceFaceWidth := none }

/-- A state in STILL_IMAGE mode with glasses selected, fed to
`resetToCamera` in the C1 counterexample. -/
def stillWithGlasses : AppState :=
  { baseState with
    isUsingUploadedImage := true
    overlaySrc := "assets/glasses.png"
    overlayType := "glasses"
    overlayImg := some ⟨100, 50⟩ }

/-- Scenario-A landmark set: 263 copies of the normalized point
(1/10, 1/5) followed by one point (1/5, 1/5), so that on a 1000×1000
canvas landmark 33 (left outer eye) maps to pixel (100, 200) and landmark
263 (right outer eye) maps to pixel (200, 200). -/
def lm6 : List Point := List.replicate 263 ⟨1/10, 1/5⟩ ++ [⟨1/5, 1/5⟩]

/-- The pre-calibration state for Scenario A: fresh session on a
1000×1000 canvas. -/
def s60 : AppState := { baseState with canvasWidth := 1000, canvasHeight := 1000 }

/-- The Scenario-A state right after first-ever calibration on `lm6`:
both captured references equal 100 (the right-temple landmark 454 is
beyond this landmark list, so no face-width reference is captured). -/
def s6c : AppState :=
  { s60 with
    detectedLandmarks := some lm6
    referenceEyeDistance := some 100
    referenceFaceSize := some 100 }

/-- A landmark set whose outer eye corners land at pixels (0,0) and
(100,0) on the 100×100 canvas: 263 copies of (0,0) followed by (1,0). -/
def lmB : List Point := List.replicate 263 ⟨0, 0⟩ ++ [⟨1, 0⟩]

/-- A state whose eye-distance reference is 0 — non-null, but falsy to
the JavaScript truthiness tests.  Reachable: a detection frame whose two
outer eye landmarks coincide captures a 0 reference. -/
def s3z : AppState := { baseState with referenceEyeDistance := some 0 }

/-- A state with all three references captured and non-zero. -/
def s3w : AppState :=
  { baseState with
    referenceEyeDistance := some 5
    referenceFaceWidth := some 6
    referenceFaceSize := some 7 }

/-- A state with eye-distance reference 1 and the `lmB` landmarks
detected, driving the eye scale to its upper clamp. -/
def s5w : AppState :=
  { baseState with
    detectedLandmarks := some lmB
    referenceEyeDistance := some 1 }

/-- A state with a zero (non-null) eye-distance reference and the `lmB`
landmarks detected. -/
def s5z : AppState :=
  { baseState with
    detectedLandmarks := some lmB
    referenceEyeDistance := some 0 }

/-- A two-landmark list spanning pixels (0,0)–(100,50) on the 100×100
canvas, used to exercise the face-box fallback path of the engine. -/
def lm4 : List Point := [⟨0, 0⟩, ⟨1, 1/2⟩]

/-- A full-size landmark set (468 identical points) for exercising
`calculateFaceRotation` past its length guard. -/
def lm468 : List Point := List.replicate 468 ⟨1/2, 1/2⟩

/-- A mid-gray sampled pixel. -/
def grayPixel : RGB := ⟨128, 128, 128⟩

/-- A strongly red-dominant sampled pixel. -/
def redPixel : RGB := ⟨10, 0, 0⟩

/-- C1 counterexample: the claim asserts the selected overlay is NOT
cleared by `resetToCamera` and persists unchanged, but on a state with
glasses selected the transition resets `overlaySrc` to the empty string,
`overlayType` to the empty string, and `overlayImg` to null. -/
theorem claim1_counterexample :
    (resetToCamera stillWithGlasses).overlaySrc ≠ stillWithGlasses.overlaySrc ∧
    (resetToCamera stillWithGlasses).overlayType ≠ stillWithGlasses.overlayType ∧
    (resetToCamera stillWithGlasses).overlayImg ≠ stillWithGlasses.overlayImg := by
  decide

/-- C1 (amended): on the explicit reset transition back to CAMERA_LIVE,
`resetToCamera` clears all three calibration references to null AND also
clears the selected overlay: `overlaySrc` and `overlayType` become empty
and `overlayImg` becomes null, for every starting state. -/
theorem claim1_reset_clears_calibration_and_overlay (s : AppState) :
    (resetToCamera s).referenceEyeDistance = none ∧
    (resetToCamera s).referenceFaceWidth = none ∧
    (resetToCamera s).referenceFaceSize = none ∧
    (resetToCamera s).overlaySrc = "" ∧
    (resetToCamera s).overlayType = "" ∧
    (resetToCamera s).overlayImg = none :=
  ⟨rfl, rfl, rfl, rfl, rfl, rfl⟩

/-- Evaluation helper: a landmark index beyond the end of the list reads
as null. -/
theorem getLandmarkNat_out (lm : List Point) (i : ℕ) (cw ch : ℚ)
    (h : lm.length ≤ i) : getLandmarkNat (some lm) i cw ch = none := by
  simp [getLandmarkNat, List.getElem?_eq_none h]

/-- Evaluation helper: a landmark index within the list reads as the
scaled point. -/
theorem getLandmarkNat_in (lm : List Point) (i : ℕ) (p : Point) (cw ch : ℚ)
    (h : lm[i]? = some p) :
    getLandmarkNat (some lm) i cw ch = some ⟨p.x * cw, p.y * ch⟩ := by
  simp [getLandmarkNat, h]

/-- Element access below the replicate block of a `replicate ++ [single]`
landmark list. -/
theorem repApp_getElem_lt {α : Type} (a b : α) (n i : ℕ) (h : i < n) :
    (List.replicate n a ++ [b])[i]? = some a := by
  rw [List.getElem?_append_left (by simpa using h), List.getElem?_replicate,
    if_pos h]

/-- Element access at the final position of a `replicate ++ [single]`
landmark list. -/
theorem repApp_getElem_last {α : Type} (a b : α) (n : ℕ) :
    (List.replicate n a ++ [b])[n]? = some b := by
  have h := List.getElem?_concat_length (List.replicate n a) b
  simp only [List.length_replicate] at h
  exact h

/-- Element access beyond a `replicate ++ [single]` landmark list. -/
theorem repApp_getElem_none {α : Type} (a b : α) (n i : ℕ) (h : n < i) :
    (List.replicate n a ++ [b])[i]? = none := by
  apply List.getElem?_eq_none
  simp only [List.length_append, List.length_replicate, List.length_singleton]
  omega

/-- A fold whose step is absorbing on repeated inputs passes through a
replicate block as a single step. -/
theorem foldl_replicate_stable {α β : Type} (f : α → β → α) (p : β)
    (hf : ∀ a, f (f a p) p = f a p) (n : ℕ) (acc : α) :
    List.foldl f acc (List.replicate (n + 1) p) = f acc p := by
  induction n generalizing acc with
  | zero => rfl
  | succ m ih =>
      rw [List.replicate_succ, List.foldl_cons, ih (f acc p), hf]

/-- The face bounding box of `n ≥ 1` copies of one landmark followed by a
single other landmark equals the box of just the two landmarks (the
min/max accumulator is absorbing on repeats). -/
theorem calculateFaceBox_repApp (pt q : Point) (n : ℕ) (hn : 0 < n)
    (w h : ℚ) :
    calculateFaceBox (List.replicate n pt ++ [q]) w h =
      calculateFaceBox [pt, q] w h := by
  obtain ⟨m, rfl⟩ : ∃ m, n = m + 1 := ⟨n - 1, by omega⟩
  simp only [calculateFaceBox, List.foldl_append]
  rw [foldl_replicate_stable _ pt
    (fun acc => by
      simp only [min_assoc, max_assoc, min_self, max_self])]
  rfl

/-- Square root of 10000 under the `Math.sqrt` model. -/
theorem jsSqrt_10000 : jsSqrt 10000 = 100 := by
  norm_num [jsSqrt]
  simp
  norm_num

/-- The pixel distance between (0,0) and (100,0). -/
theorem dist_0_100 : calculateDistance (some ⟨0, 0⟩) (some ⟨100, 0⟩) = 100 := by
  simp only [calculateDistance]
  rw [show ((100:ℚ) - 0) ^ 2 + ((0:ℚ) - 0) ^ 2 = 10000 by norm_num]
  exact jsSqrt_10000

/-- `lmB` has 264 landmarks. -/
theorem lmB_length : lmB.length = 264 := by
  rw [lmB, List.length_append, List.length_replicate, List.length_singleton]

/-- Landmark 33 of `lmB` reads as the pixel origin. -/
theorem lmB_at33 (cw ch : ℚ) : getLandmarkNat (some lmB) 33 cw ch = some ⟨0, 0⟩ := by
  have h : lmB[33]? = some ⟨0, 0⟩ := by
    rw [lmB]; exact repApp_getElem_lt _ _ _ _ (by norm_num)
  rw [getLandmarkNat_in lmB 33 ⟨0, 0⟩ cw ch h]
  simp

/-- Landmark 263 of `lmB` reads as the pixel (cw, 0). -/
theorem lmB_at263 (cw ch : ℚ) :
    getLandmarkNat (some lmB) 263 cw ch = some ⟨cw, 0⟩ := by
  have h : lmB[263]? = some ⟨1, 0⟩ := by
    rw [lmB]; exact repApp_getElem_last _ _ _
  rw [getLandmarkNat_in lmB 263 ⟨1, 0⟩ cw ch h]
  simp

/-- Landmark 234 of `lmB` reads as the pixel origin. -/
theorem lmB_at234 (cw ch : ℚ) : getLandmarkNat (some lmB) 234 cw ch = some ⟨0, 0⟩ := by
  have h : lmB[234]? = some ⟨0, 0⟩ := by
    rw [lmB]; exact repApp_getElem_lt _ _ _ _ (by norm_num)
  rw [getLandmarkNat_in lmB 234 ⟨0, 0⟩ cw ch h]
  simp

/-- Landmark 454 is beyond `lmB`. -/
theorem lmB_at454 (cw ch : ℚ) : getLandmarkNat (some lmB) 454 cw ch = none :=
  getLandmarkNat_out _ _ _ _ (by rw [lmB_length]; norm_num)

set_option maxRecDepth 16384 in
/-- C3 counterexample: the claim asserts that once a calibration
reference is non-null, detection frames with a face present never change
it.  But a reference equal to 0 is non-null yet falsy, so the calibrator
overwrites it: from `referenceEyeDistance = some 0` a frame whose outer
eyes are 100 pixels apart changes the reference to 100. -/
theorem claim3_counterexample :
    s3z.referenceEyeDistance = some 0 ∧
    s3z.referenceEyeDistance ≠ none ∧
    (onResults s3z (some lmB)).referenceEyeDistance = some 100 := by
  refine ⟨rfl, by simp [s3z, baseState], ?_⟩
  simp only [onResults]
  rw [lmB_at33, lmB_at263, lmB_at234, lmB_at454]
  simp [refUnset, dist_0_100, show s3z.referenceEyeDistance = some 0 from rfl,
    show s3z.referenceFaceSize = none from rfl,
    show s3z.canvasWidth = 100 from rfl]

/-- C3 (amended): a calibration reference that is non-null AND non-zero
is never changed by a detection-callback frame with a face present (the
JavaScript truthiness test treats a 0 reference as unset and re-captures
it, which is the one deviation from the claim); and on a frame where
face detection is lost, all three references are set to null. -/
theorem claim3_references_stable (s : AppState) (lm : List Point) :
    (∀ r : ℚ, r ≠ 0 → s.referenceEyeDistance = some r →
      (onResults s (some lm)).referenceEyeDistance = some r) ∧
    (∀ r : ℚ, r ≠ 0 → s.referenceFaceWidth = some r →
      (onResults s (some lm)).referenceFaceWidth = some r) ∧
    (∀ r : ℚ, r ≠ 0 → s.referenceFaceSize = some r →
      (onResults s (some lm)).referenceFaceSize = some r) ∧
    (onResults s none).referenceEyeDistance = none ∧
    (onResults s none).referenceFaceWidth = none ∧
    (onResults s none).referenceFaceSize = none := by
  refine ⟨?_, ?_, ?_, rfl, rfl, rfl⟩ <;>
    (intro r hr href
     rcases h33 : getLandmarkNat (some lm) 33 s.canvasWidth s.canvasHeight
       with _ | le <;>
     rcases h263 : getLandmarkNat (some lm) 263 s.canvasWidth s.canvasHeight
       with _ | re <;>
     rcases h234 : getLandmarkNat (some lm) 234 s.canvasWidth s.canvasHeight
       with _ | fl <;>
     rcases h454 : getLandmarkNat (some lm) 454 s.canvasWidth s.canvasHeight
       with _ | fr <;>
     simp [onResults, h33, h263, h234, h454, refUnset, href, hr,
       apply_ite AppState.referenceEyeDistance,
       apply_ite AppState.referenceFaceWidth,
       apply_ite AppState.referenceFaceSize])

/-- C3 witness: a state with all three references captured non-zero is
left unchanged by a further detection frame, and a lost-face frame
clears the eye reference. -/
theorem claim3_witness :
    (onResults s3w (some [])).referenceEyeDistance = some 5 ∧
    (onResults s3w (some [])).referenceFaceWidth = some 6 ∧
    (onResults s3w (some [])).referenceFaceSize = some 7 ∧
    (onResults s3w none).referenceEyeDistance = none := by
  refine ⟨?_, ?_, ?_, ?_⟩
  · exact (claim3_references_stable s3w []).1 5 (by norm_num) rfl
  · exact (claim3_references_stable s3w []).2.1 6 (by norm_num) rfl
  · exact (claim3_references_stable s3w []).2.2.1 7 (by norm_num) rfl
  · exact (claim3_references_stable s3w []).2.2.2.1

/-- The clamp never goes below its lower bound. -/
theorem le_clampQ (lo hi v : ℚ) : lo ≤ clampQ lo hi v := le_max_left _ _

/-- The clamp never exceeds its upper bound. -/
theorem clampQ_le (lo hi v : ℚ) (h : lo ≤ hi) : clampQ lo hi v ≤ hi :=
  max_le h (min_le_left _ _)

/-- Every value of the eye-distance scale is either the neutral 1 or a
clamped ratio. -/
theorem eyeScale_cases (s : AppState) :
    calculateEyeDistanceScale s = 1 ∨
      ∃ v, calculateEyeDistanceScale s = clampQ (2/5) (5/2) v := by
  rcases href : s.referenceEyeDistance with _ | r
  · left; simp [calculateEyeDistanceScale, href]
  · rcases hlm : s.detectedLandmarks with _ | lm
    · left; simp [calculateEyeDistanceScale, href, hlm]
    · by_cases hr : r = 0
      · left; simp [calculateEyeDistanceScale, href, hlm, hr]
      · rcases hle : leftEyePoint s with _ | le
        · left; simp [calculateEyeDistanceScale, href, hlm, hr, hle]
        · rcases hre : rightEyePoint s with _ | re
          · left; simp [calculateEyeDistanceScale, href, hlm, hr, hle, hre]
          · right
            refine ⟨calculateDistance (some le) (some re) / r, ?_⟩
            simp [calculateEyeDistanceScale, href, hlm, hr, hle, hre]

/-- Every value of the face-width scale is either the neutral 1 or a
clamped ratio. -/
theorem faceWidthScale_cases (s : AppState) :
    calculateFaceWidthScale s = 1 ∨
      ∃ v, calculateFaceWidthScale s = clampQ (2/5) (5/2) v := by
  rcases href : s.referenceFaceWidth with _ | r
  · left; simp [calculateFaceWidthScale, href]
  · rcases hlm : s.detectedLandmarks with _ | lm
    · left; simp [calculateFaceWidthScale, href, hlm]
    · by_cases hr : r = 0
      · left; simp [calculateFaceWidthScale, href, hlm, hr]
      · rcases hfl : faceLeftPoint s with _ | fl
        · left; simp [calculateFaceWidthScale, href, hlm, hr, hfl]
        · rcases hfr : faceRightPoint s with _ | fr
          · left; simp [calculateFaceWidthScale, href, hlm, hr, hfl, hfr]
          · right
            refine ⟨calculateDistance (some fl) (some fr) / r, ?_⟩
            simp [calculateFaceWidthScale, href, hlm, hr, hfl, hfr]

/-- Every value of the overall distance scale is either the neutral 1 or
a clamped inverted ratio. -/
theorem distanceScale_cases (s : AppState) :
    calculateDistanceScale s = 1 ∨
      ∃ v, calculateDistanceScale s = clampQ (1/2) 2 v := by
  rcases href : s.referenceFaceSize with _ | r
  · left; simp [calculateDistanceScale, href]
  · rcases hlm : s.detectedLandmarks with _ | lm
    · left; simp [calculateDistanceScale, href, hlm]
    · by_cases hr : r = 0
      · left; simp [calculateDistanceScale, href, hlm, hr]
      · right
        refine ⟨r / currentFaceSizeOf s lm, ?_⟩
        simp [calculateDistanceScale, href, hlm, hr]

/-- C5 counterexample: the claim quantifies over every non-null
reference, but a reference equal to 0 is non-null yet falsy, so the code
returns the neutral scale 1.0 instead of the claimed
`clamp(current/reference, 0.4, 2.5)` (which is 0.4 under total rational
division by zero, and would be 2.5 under the IEEE `current/0 = ∞`
reading — either way not 1.0). -/
theorem claim5_counterexample :
    s5z.referenceEyeDistance = some 0 ∧
    s5z.referenceEyeDistance ≠ none ∧
    calculateEyeDistanceScale s5z = 1 ∧
    clampQ (2/5) (5/2)
      (calculateDistance (leftEyePoint s5z) (rightEyePoint s5z) / 0) ≠ 1 := by
  have hle : leftEyePoint s5z = some ⟨0, 0⟩ := lmB_at33 100 100
  have hre : rightEyePoint s5z = some ⟨100, 0⟩ := lmB_at263 100 100
  refine ⟨rfl, by simp [s5z, baseState], ?_, ?_⟩
  · simp [calculateEyeDistanceScale,
      show s5z.referenceEyeDistance = some 0 from rfl,
      show s5z.detectedLandmarks = some lmB from rfl]
  · rw [hle, hre, dist_0_100]
    norm_num [clampQ, min_def, max_def]

/-- C5 (amended): with a non-null, NON-ZERO reference and the required
landmarks available, the eye-distance and face-width scales equal
`clamp(current/reference, 0.4, 2.5)` and the overall distance scale
equals the inverted `clamp(reference/current, 0.5, 2.0)`; every result
always lies within its documented bounds; and each function returns 1.0
when its reference is null (or zero — the JavaScript falsiness
deviation) or its required landmarks are unavailable. -/
theorem claim5_scale_functions (s : AppState) :
    ((2:ℚ)/5 ≤ calculateEyeDistanceScale s ∧ calculateEyeDistanceScale s ≤ 5/2) ∧
    ((2:ℚ)/5 ≤ calculateFaceWidthScale s ∧ calculateFaceWidthScale s ≤ 5/2) ∧
    ((1:ℚ)/2 ≤ calculateDistanceScale s ∧ calculateDistanceScale s ≤ 2) ∧
    (s.referenceEyeDistance = none → calculateEyeDistanceScale s = 1) ∧
    (s.referenceFaceWidth = none → calculateFaceWidthScale s = 1) ∧
    (s.referenceFaceSize = none → calculateDistanceScale s = 1) ∧
    (s.detectedLandmarks = none →
      calculateEyeDistanceScale s = 1 ∧ calculateFaceWidthScale s = 1 ∧
        calculateDistanceScale s = 1) ∧
    (leftEyePoint s = none ∨ rightEyePoint s = none →
      calculateEyeDistanceScale s = 1) ∧
    (faceLeftPoint s = none ∨ faceRightPoint s = none →
      calculateFaceWidthScale s = 1) ∧
    (∀ (r : ℚ) (le re : Point), s.referenceEyeDistance = some r → r ≠ 0 →
      leftEyePoint s = some le → rightEyePoint s = some re →
      calculateEyeDistanceScale s =
        clampQ (2/5) (5/2) (calculateDistance (some le) (some re) / r)) ∧
    (∀ (r : ℚ) (fl fr : Point), s.referenceFaceWidth = some r → r ≠ 0 →
      faceLeftPoint s = some fl → faceRightPoint s = some fr →
      calculateFaceWidthScale s =
        clampQ (2/5) (5/2) (calculateDistance (some fl) (some fr) / r)) ∧
    (∀ (r : ℚ) (lm : List Point), s.referenceFaceSize = some r → r ≠ 0 →
      s.detectedLandmarks = some lm →
      calculateDistanceScale s = clampQ (1/2) 2 (r / currentFaceSizeOf s lm)) := by
  refine ⟨?_, ?_, ?_, ?_, ?_, ?_, ?_, ?_, ?_, ?_, ?_, ?_⟩
  · rcases eyeScale_cases s with h | ⟨v, h⟩ <;> rw [h]
    · constructor <;> norm_num
    · exact ⟨le_clampQ _ _ _, clampQ_le _ _ _ (by norm_num)⟩
  · rcases faceWidthScale_cases s with h | ⟨v, h⟩ <;> rw [h]
    · constructor <;> norm_num
    · exact ⟨le_clampQ _ _ _, clampQ_le _ _ _ (by norm_num)⟩
  · rcases distanceScale_cases s with h | ⟨v, h⟩ <;> rw [h]
    · constructor <;> norm_num
    · exact ⟨le_clampQ _ _ _, clampQ_le _ _ _ (by norm_num)⟩
  · intro h; simp [calculateEyeDistanceScale, h]
  · intro h; simp [calculateFaceWidthScale, h]
  · intro h; simp [calculateDistanceScale, h]
  · intro h
    refine ⟨?_, ?_, ?_⟩ <;>
      simp [calculateEyeDistanceScale, calculateFaceWidthScale,
        calculateDistanceScale, h]
  · intro h
    rcases href : s.referenceEyeDistance with _ | r
    · simp [calculateEyeDistanceScale, href]
    · rcases hlm : s.detectedLandmarks with _ | lm
      · simp [calculateEyeDistanceScale, href, hlm]
      · by_cases hr : r = 0
        · simp [calculateEyeDistanceScale, href, hlm, hr]
        · rcases h with h | h <;>
            simp [calculateEyeDistanceScale, href, hlm, hr, h]
  · intro h
    rcases href : s.referenceFaceWidth with _ | r
    · simp [calculateFaceWidthScale, href]
    · rcases hlm : s.detectedLandmarks with _ | lm
      · simp [calculateFaceWidthScale, href, hlm]
      · by_cases hr : r = 0
        · simp [calculateFaceWidthScale, href, hlm, hr]
        · rcases h with h | h <;>
            simp [calculateFaceWidthScale, href, hlm, hr, h]
  · intro r le re href hr hle hre
    rcases hlm : s.detectedLandmarks with _ | lm
    · rw [leftEyePoint, hlm] at hle
      exact Option.noConfusion hle
    · simp [calculateEyeDistanceScale, href, hlm, hr, hle, hre]
  · intro r fl fr href hr hfl hfr
    rcases hlm : s.detectedLandmarks with _ | lm
    · rw [faceLeftPoint, hlm] at hfl
      exact Option.noConfusion hfl
    · simp [calculateFaceWidthScale, href, hlm, hr, hfl, hfr]
  · intro r lm href hr hlm
    simp [calculateDistanceScale, href, hr, hlm]

/-- C5 witness: with reference 1 and the `lmB` eyes 100 pixels apart the
eye scale equals the clamped ratio `clamp(100/1) = 2.5` and sits within
its bounds, and a state with no face-size reference yields the neutral
distance scale 1. -/
theorem claim5_witness :
    calculateEyeDistanceScale s5w =
      clampQ (2/5) (5/2) (calculateDistance (some ⟨0, 0⟩) (some ⟨100, 0⟩) / 1) ∧
    calculateEyeDistanceScale s5w = 5/2 ∧
    (2:ℚ)/5 ≤ calculateEyeDistanceScale s5w ∧
    calculateEyeDistanceScale s5w ≤ 5/2 ∧
    calculateDistanceScale baseState = 1 := by
  have hle : leftEyePoint s5w = some ⟨0, 0⟩ := lmB_at33 100 100
  have hre : rightEyePoint s5w = some ⟨100, 0⟩ := lmB_at263 100 100
  have hmain :=
    (claim5_scale_functions s5w).2.2.2.2.2.2.2.2.2.1 1 ⟨0, 0⟩ ⟨100, 0⟩
      rfl (by norm_num) hle hre
  refine ⟨hmain, ?_, (claim5_scale_functions s5w).1.1,
    (claim5_scale_functions s5w).1.2, ?_⟩
  · rw [hmain, dist_0_100]
    norm_num [clampQ, min_def, max_def]
  · exact (claim5_scale_functions baseState).2.2.2.2.2.1 rfl

/-- C2: the Overlay Fitting Engine returns null exactly when the
landmarks argument is absent or the category string is not one of
glasses/hat/shirt — for every state, asset size and category; in
particular every recognized category with non-null landmarks yields a
non-null Placement. -/
theorem claim2_fit_null_iff (s : AppState) (type : String)
    (landmarks : Option (List Point)) (imgWidth imgHeight : ℚ) :
    calculateOverlayPosition s type landmarks imgWidth imgHeight = none ↔
      landmarks = none ∨
        (type ≠ "glasses" ∧ type ≠ "hat" ∧ type ≠ "shirt") := by
  cases landmarks with
  | none => simp [calculateOverlayPosition]
  | some lm =>
      by_cases hg : type = "glasses"
      · simp only [calculateOverlayPosition]
        rw [if_neg (by rw [hg]; decide), if_pos hg]
        refine iff_of_false ?_ (by simp [hg])
        split <;> (try split) <;> simp
      · by_cases hh : type = "hat"
        · simp only [calculateOverlayPosition]
          rw [if_neg (by rw [hh]; decide), if_neg hg, if_pos hh]
          refine iff_of_false ?_ (by simp [hh])
          split <;> (try split) <;> (try split) <;> simp
        · by_cases hs : type = "shirt"
          · simp only [calculateOverlayPosition]
            rw [if_neg (by rw [hs]; decide), if_neg hg, if_neg hh, if_pos hs]
            refine iff_of_false ?_ (by simp [hs])
            split <;> (try split) <;> (try split) <;> simp
          · by_cases h0 : type = ""
            · simp only [calculateOverlayPosition]
              rw [if_pos h0]
              exact iff_of_true rfl (Or.inr ⟨hg, hh, hs⟩)
            · simp only [calculateOverlayPosition]
              rw [if_neg h0, if_neg hg, if_neg hh, if_neg hs]
              exact iff_of_true rfl (Or.inr ⟨hg, hh, hs⟩)

/-- C4: every Placement the Fitting Engine returns, in every category and
every fallback path, satisfies `height = (assetHeight / assetWidth) ×
width` — the asset's native aspect ratio is never distorted. -/
theorem claim4_aspect_ratio_preserved (s : AppState) (type : String)
    (landmarks : Option (List Point)) (imgWidth imgHeight : ℚ)
    (p : Placement)
    (h : calculateOverlayPosition s type landmarks imgWidth imgHeight = some p) :
    p.height = (imgHeight / imgWidth) * p.width := by
  cases landmarks with
  | none => exact Option.noConfusion h
  | some lm =>
      simp only [calculateOverlayPosition] at h
      by_cases h0 : type = ""
      · rw [if_pos h0] at h
        exact Option.noConfusion h
      · rw [if_neg h0] at h
        by_cases hg : type = "glasses"
        · rw [if_pos hg] at h
          revert h
          split <;> (try split) <;>
            (intro h; injection h with h2; subst h2; simp [mkPlacement])
        · rw [if_neg hg] at h
          by_cases hh : type = "hat"
          · rw [if_pos hh] at h
            revert h
            split <;> (try split) <;> (try split) <;>
              (intro h; injection h with h2; subst h2; simp [mkPlacement])
          · rw [if_neg hh] at h
            by_cases hs : type = "shirt"
            · rw [if_pos hs] at h
              revert h
              split <;> (try split) <;> (try split) <;>
                (intro h; injection h with h2; subst h2; simp [mkPlacement])
            · rw [if_neg hs] at h
              exact Option.noConfusion h

/-- `lm6` has 264 landmarks. -/
theorem lm6_length : lm6.length = 264 := by
  rw [lm6, List.length_append, List.length_replicate, List.length_singleton]

/-- Landmark 33 of `lm6` on the 1000×1000 canvas is pixel (100, 200). -/
theorem lm6_at33 : getLandmarkNat (some lm6) 33 1000 1000 = some ⟨100, 200⟩ := by
  have h : lm6[33]? = some ⟨1/10, 1/5⟩ := by
    rw [lm6]; exact repApp_getElem_lt _ _ _ _ (by norm_num)
  rw [getLandmarkNat_in lm6 33 ⟨1/10, 1/5⟩ 1000 1000 h]
  norm_num

/-- Landmark 133 of `lm6` on the 1000×1000 canvas is pixel (100, 200). -/
theorem lm6_at133 : getLandmarkNat (some lm6) 133 1000 1000 = some ⟨100, 200⟩ := by
  have h : lm6[133]? = some ⟨1/10, 1/5⟩ := by
    rw [lm6]; exact repApp_getElem_lt _ _ _ _ (by norm_num)
  rw [getLandmarkNat_in lm6 133 ⟨1/10, 1/5⟩ 1000 1000 h]
  norm_num

/-- Landmark 234 of `lm6` on the 1000×1000 canvas is pixel (100, 200). -/
theorem lm6_at234 : getLandmarkNat (some lm6) 234 1000 1000 = some ⟨100, 200⟩ := by
  have h : lm6[234]? = some ⟨1/10, 1/5⟩ := by
    rw [lm6]; exact repApp_getElem_lt _ _ _ _ (by norm_num)
  rw [getLandmarkNat_in lm6 234 ⟨1/10, 1/5⟩ 1000 1000 h]
  norm_num

/-- Landmark 263 of `lm6` on the 1000×1000 canvas is pixel (200, 200). -/
theorem lm6_at263 : getLandmarkNat (some lm6) 263 1000 1000 = some ⟨200, 200⟩ := by
  have h : lm6[263]? = some ⟨1/5, 1/5⟩ := by
    rw [lm6]; exact repApp_getElem_last _ _ _
  rw [getLandmarkNat_in lm6 263 ⟨1/5, 1/5⟩ 1000 1000 h]
  norm_num

/-- Landmark 362 is beyond `lm6`. -/
theorem lm6_at362 : getLandmarkNat (some lm6) 362 1000 1000 = none :=
  getLandmarkNat_out _ _ _ _ (by rw [lm6_length]; norm_num)

/-- Landmark 454 is beyond `lm6`. -/
theorem lm6_at454 : getLandmarkNat (some lm6) 454 1000 1000 = none :=
  getLandmarkNat_out _ _ _ _ (by rw [lm6_length]; norm_num)

/-- The pixel distance between the `lm6` outer eye corners. -/
theorem dist6 : calculateDistance (some ⟨100, 200⟩) (some ⟨200, 200⟩) = 100 := by
  simp only [calculateDistance]
  rw [show ((200:ℚ) - 100) ^ 2 + ((200:ℚ) - 200) ^ 2 = 10000 by norm_num]
  exact jsSqrt_10000

/-- The face box of `lm6` on the 1000×1000 canvas. -/
theorem faceBox6 : calculateFaceBox lm6 1000 1000 = ⟨100, 200, 100, 0⟩ := by
  rw [lm6, calculateFaceBox_repApp _ _ _ (by norm_num)]
  simp only [calculateFaceBox, List.foldl_cons, List.foldl_nil]
  norm_num [min_def, max_def]

/-- The face-box diagonal of `lm6` in the Scenario-A session. -/
theorem size6 : currentFaceSizeOf s60 lm6 = 100 := by
  simp only [currentFaceSizeOf, show s60.canvasWidth = 1000 from rfl,
    show s60.canvasHeight = 1000 from rfl]
  rw [faceBox6]
  rw [show ((⟨100, 200, 100, 0⟩ : FaceBox).width *
      (⟨100, 200, 100, 0⟩ : FaceBox).width +
      (⟨100, 200, 100, 0⟩ : FaceBox).height *
      (⟨100, 200, 100, 0⟩ : FaceBox).height) = 10000 by norm_num]
  exact jsSqrt_10000

/-- The rotation update on `lm6` (fewer than 468 points) resets to 0. -/
theorem rot6 : calculateFaceRotation s60 lm6 = ⟨0, 0, 0⟩ := by
  simp only [calculateFaceRotation]
  rw [if_pos (by rw [lm6_length]; norm_num)]

set_option maxRecDepth 32768 in
/-- The first detection callback of the Scenario-A session captures both
available references at 100. -/
theorem onResults6 : onResults s60 (some lm6) = s6c := by
  simp only [onResults, show s60.canvasWidth = 1000 from rfl,
    show s60.canvasHeight = 1000 from rfl]
  rw [lm6_at33, lm6_at263, lm6_at234, lm6_at454, rot6]
  simp [refUnset, dist6, size6, s6c,
    show s60.referenceEyeDistance = none from rfl,
    show s60.referenceFaceSize = none from rfl]
  exact ⟨rfl, rfl, rfl⟩

/-- The eye-distance scale at the freshly calibrated Scenario-A state is
the neutral 1. -/
theorem eyeScale6 : calculateEyeDistanceScale s6c = 1 := by
  have hle : leftEyePoint s6c = some ⟨100, 200⟩ := lm6_at33
  have hre : rightEyePoint s6c = some ⟨200, 200⟩ := lm6_at263
  simp only [calculateEyeDistanceScale,
    show s6c.referenceEyeDistance = some 100 from rfl,
    show s6c.detectedLandmarks = some lm6 from rfl, hle, hre, dist6]
  norm_num [clampQ, min_def, max_def]

set_option maxRecDepth 32768 in
/-- C6 (Scenario A): with outer eyes at pixels (100,200) and (200,200),
category glasses, a 100×50 asset, user scale 1.0 and first-ever
calibration (`onResults` on a fresh session captures the references, so
the eye scale is 1.0), the engine measures eyeDistance = 100 and places
the overlay with width = 100×2.2×1.0×1.0 = 220, height = 110 and
centerX = 150. -/
theorem claim6_scenarioA :
    onResults s60 (some lm6) = s6c ∧
    calculateDistance (leftEyePoint s6c) (rightEyePoint s6c) = 100 ∧
    calculateEyeDistanceScale s6c = 1 ∧
    calculateOverlayPosition s6c "glasses" (some lm6) 100 50 =
      some ⟨40, 301/2, 220, 110, 150, 200⟩ := by
  have hle : leftEyePoint s6c = some ⟨100, 200⟩ := lm6_at33
  have hre : rightEyePoint s6c = some ⟨200, 200⟩ := lm6_at263
  refine ⟨onResults6, ?_, eyeScale6, ?_⟩
  · rw [hle, hre]; exact dist6
  · simp only [calculateOverlayPosition, reduceIte,
      show s6c.canvasWidth = 1000 from rfl,
      show s6c.canvasHeight = 1000 from rfl]
    rw [lm6_at33, lm6_at263, lm6_at133, lm6_at362]
    simp only [smartFittingMultiplier, reduceIte, mkPlacement, dist6, eyeScale6,
      show s6c.overlayScale = 1 from rfl,
      show s6c.overlayOffsetY = 0 from rfl]
    norm_num
    intro h
    exact absurd h (by decide)

/-- The face box of the two-landmark list `lm4` on the 100×100 canvas. -/
theorem faceBox4 : calculateFaceBox lm4 100 100 = ⟨0, 0, 100, 50⟩ := by
  simp only [lm4, calculateFaceBox, List.foldl_cons, List.foldl_nil]
  norm_num [min_def, max_def]

set_option maxRecDepth 32768 in
/-- C4 witness: on the face-box fallback path (two landmarks only, so no
eye corners), a 100×50 asset in the glasses category produces the
placement (−16, −41/2, 132, 66, 50, 25/2), whose height 66 is
(50/100) × 132 as the aspect-ratio theorem demands. -/
theorem claim4_witness :
    calculateOverlayPosition baseState "glasses" (some lm4) 100 50 =
      some ⟨-16, -41/2, 132, 66, 50, 25/2⟩ ∧
    (⟨-16, -41/2, 132, 66, 50, 25/2⟩ : Placement).height =
      ((50:ℚ) / 100) * (⟨-16, -41/2, 132, 66, 50, 25/2⟩ : Placement).width := by
  have heval : calculateOverlayPosition baseState "glasses" (some lm4) 100 50 =
      some ⟨-16, -41/2, 132, 66, 50, 25/2⟩ := by
    simp only [calculateOverlayPosition, reduceIte,
      show baseState.canvasWidth = 100 from rfl,
      show baseState.canvasHeight = 100 from rfl]
    rw [getLandmarkNat_out lm4 33 100 100 (by rw [lm4]; norm_num),
      getLandmarkNat_out lm4 263 100 100 (by rw [lm4]; norm_num),
      faceBox4]
    simp only [calculateDistanceScale,
      show baseState.referenceFaceSize = none from rfl, mkPlacement,
      smartFittingMultiplier, reduceIte,
      show baseState.overlayScale = 1 from rfl,
      show baseState.overlayOffsetY = 0 from rfl]
    norm_num
    intro h
    exact absurd h (by decide)
  exact ⟨heval,
    claim4_aspect_ratio_preserved baseState "glasses" (some lm4) 100 50 _ heval⟩

/-- C8: with at least 468 landmarks, `calculateFaceRotation` updates
every axis by the smoothing rule `new = prev × 0.7 + raw × 0.3` applied
to the previously stored smoothed value; and iterating that rule against
a constant raw input is a contraction — the error shrinks by exactly the
factor 0.7 each update, so the smoothed value monotonically approaches
the raw value from its starting side and never overshoots it. -/
theorem claim8_smoothing_contraction :
    (∀ (s : AppState) (lm : List Point), 468 ≤ lm.length →
      calculateFaceRotation s lm =
        ⟨smoothAxis s.faceRotation.roll (rawRotation s lm).roll,
         smoothAxis s.faceRotation.pitch (rawRotation s lm).pitch,
         smoothAxis s.faceRotation.yaw (rawRotation s lm).yaw⟩) ∧
    (∀ (x0 raw : ℚ) (n : ℕ),
      smoothSeq x0 raw (n + 1) - raw = (7/10) * (smoothSeq x0 raw n - raw) ∧
      |smoothSeq x0 raw (n + 1) - raw| ≤ |smoothSeq x0 raw n - raw| ∧
      (smoothSeq x0 raw n ≤ raw →
        smoothSeq x0 raw n ≤ smoothSeq x0 raw (n + 1) ∧
          smoothSeq x0 raw (n + 1) ≤ raw) ∧
      (raw ≤ smoothSeq x0 raw n →
        smoothSeq x0 raw (n + 1) ≤ smoothSeq x0 raw n ∧
          raw ≤ smoothSeq x0 raw (n + 1))) := by
  constructor
  · intro s lm h
    simp only [calculateFaceRotation]
    rw [if_neg (by omega)]
  · intro x0 raw n
    have hstep : smoothSeq x0 raw (n + 1) - raw =
        (7/10) * (smoothSeq x0 raw n - raw) := by
      show smoothAxis (smoothSeq x0 raw n) raw - raw = _
      simp only [smoothAxis, smoothingFactor]
      ring
    refine ⟨hstep, ?_, ?_, ?_⟩
    · rw [hstep, abs_mul, abs_of_nonneg (by norm_num : (0:ℚ) ≤ 7/10)]
      have h0 := abs_nonneg (smoothSeq x0 raw n - raw)
      linarith
    · intro h
      constructor <;> linarith [hstep]
    · intro h
      constructor <;> linarith [hstep]

/-- C8 witness: a full 468-landmark frame goes through the smoothing
update, and one step of the sequence from 0 toward the constant raw
value 1 lands at 0.3, shrinking the error from 1 to 0.7. -/
theorem claim8_witness :
    calculateFaceRotation baseState lm468 =
      ⟨smoothAxis baseState.faceRotation.roll (rawRotation baseState lm468).roll,
       smoothAxis baseState.faceRotation.pitch (rawRotation baseState lm468).pitch,
       smoothAxis baseState.faceRotation.yaw (rawRotation baseState lm468).yaw⟩ ∧
    smoothSeq 0 1 1 - 1 = (7/10) * (smoothSeq 0 1 0 - 1) ∧
    smoothSeq 0 1 1 = 3/10 := by
  refine ⟨claim8_smoothing_contraction.1 baseState lm468 ?_,
    (claim8_smoothing_contraction.2 0 1 0).1, ?_⟩
  · rw [lm468, List.length_replicate]
  · norm_num [smoothSeq, smoothAxis, smoothingFactor]

/-- Folding an accumulating sum over a list on which the sampled value is
constant adds the constant once per element. -/
theorem foldl_add_generic (f : RGB → ℚ) (c : ℚ) (l : List RGB)
    (h : ∀ p ∈ l, f p = c) (a : ℚ) :
    l.foldl (fun acc p => acc + f p) a = a + c * l.length := by
  induction l generalizing a with
  | nil => simp
  | cons p t ih =>
      simp only [List.foldl_cons, List.length_cons]
      rw [ih (fun q hq => h q (by simp [hq])) (a + f p), h p (by simp)]
      push_cast
      ring

/-- Folding a running maximum over a nonempty list on which the sampled
value is constant yields the max of the seed and the constant. -/
theorem foldl_max_generic (f : RGB → ℚ) (c : ℚ) (l : List RGB)
    (h : ∀ p ∈ l, f p = c) (hne : l ≠ []) (a : ℚ) :
    l.foldl (fun acc p => max acc (f p)) a = max a c := by
  induction l generalizing a with
  | nil => exact absurd rfl hne
  | cons p t ih =>
      simp only [List.foldl_cons]
      rcases eq_or_ne t [] with rfl | hne2
      · simp [h p (by simp)]
      · rw [ih (fun q hq => h q (by simp [hq])) hne2 (max a (f p)),
          h p (by simp), max_assoc, max_self]

/-- Folding a running minimum over a nonempty list on which the sampled
value is constant yields the min of the seed and the constant. -/
theorem foldl_min_generic (f : RGB → ℚ) (c : ℚ) (l : List RGB)
    (h : ∀ p ∈ l, f p = c) (hne : l ≠ []) (a : ℚ) :
    l.foldl (fun acc p => min acc (f p)) a = min a c := by
  induction l generalizing a with
  | nil => exact absurd rfl hne
  | cons p t ih =>
      simp only [List.foldl_cons]
      rcases eq_or_ne t [] with rfl | hne2
      · simp [h p (by simp)]
      · rw [ih (fun q hq => h q (by simp [hq])) hne2 (min a (f p)),
          h p (by simp), min_assoc, min_self]

/-- Folding an accumulating sum of a nonnegative sample stays
nonnegative. -/
theorem foldl_add_nonneg (f : RGB → ℚ) (hf : ∀ p, 0 ≤ f p) (l : List RGB)
    (a : ℚ) (ha : 0 ≤ a) :
    0 ≤ l.foldl (fun acc p => acc + f p) a := by
  induction l generalizing a with
  | nil => exact ha
  | cons p t ih =>
      simp only [List.foldl_cons]
      exact ih (a + f p) (by have := hf p; linarith)

/-- The luminance of the mid-gray pixel is exactly 128 (the BT.601
weights sum to 1). -/
theorem luminance_gray : luminance grayPixel = 128 := by
  norm_num [luminance, grayPixel]

/-- The `Math.sqrt` model at 0. -/
theorem jsSqrt_zero : jsSqrt 0 = 0 := by
  norm_num [jsSqrt]

/-- The average red channel of the sample is nonnegative. -/
theorem avgROf_nonneg (pixels : List RGB) : 0 ≤ avgROf pixels := by
  apply div_nonneg
  · exact foldl_add_nonneg _ (fun p => by positivity) _ _ le_rfl
  · positivity

/-- The average blue channel of the sample is nonnegative. -/
theorem avgBOf_nonneg (pixels : List RGB) : 0 ≤ avgBOf pixels := by
  apply div_nonneg
  · exact foldl_add_nonneg _ (fun p => by positivity) _ _ le_rfl
  · positivity

set_option maxRecDepth 16384 in
/-- C9 (Scenario C): a nonempty sample region whose pixels are all
mid-gray (R=G=B=128) produces exactly the target values
brightness = 1.0, contrast = 0.9, saturation = 0.9 and color temperature
6000 K (colorBalance = 0.5). -/
theorem claim9_midgray_targets (pixels : List RGB)
    (target current : Lighting) (hne : pixels ≠ [])
    (hall : ∀ p ∈ pixels, p = grayPixel) :
    (analyzeLighting pixels target current).1 =
      ⟨1, 9/10, 9/10, 6000⟩ := by
  have hlen : pixels.length ≠ 0 := by
    simpa [List.length_eq_zero] using hne
  have hlenQ : (pixels.length : ℚ) ≠ 0 := Nat.cast_ne_zero.mpr hlen
  have hlum : ∀ p ∈ pixels, luminance p = 128 := fun p hp => by
    rw [hall p hp]; exact luminance_gray
  have hmax : maxLuminance pixels = 128 := by
    rw [maxLuminance, foldl_max_generic luminance 128 pixels hlum hne 0]
    norm_num [max_def]
  have hmin : minLuminance pixels = 128 := by
    rw [minLuminance, foldl_min_generic luminance 128 pixels hlum hne 255]
    norm_num [min_def]
  have hr : avgROf pixels = 128 := by
    rw [avgROf, totalR, foldl_add_generic (fun p => (p.r : ℚ)) 128 pixels
      (fun p hp => by rw [hall p hp]; norm_num [grayPixel]) 0]
    field_simp
  have hg : avgGOf pixels = 128 := by
    rw [avgGOf, totalG, foldl_add_generic (fun p => (p.g : ℚ)) 128 pixels
      (fun p hp => by rw [hall p hp]; norm_num [grayPixel]) 0]
    field_simp
  have hb : avgBOf pixels = 128 := by
    rw [avgBOf, totalB, foldl_add_generic (fun p => (p.b : ℚ)) 128 pixels
      (fun p hp => by rw [hall p hp]; norm_num [grayPixel]) 0]
    field_simp
  have hcb : colorBalanceOf pixels = 1/2 := by
    rw [colorBalanceOf, hr, hb]
    norm_num
  have htemp : targetTemperatureOf pixels = 6000 := by
    rw [targetTemperatureOf, hcb]
    norm_num
  simp only [analyzeLighting]
  rw [if_neg hlen]
  simp only [hr, hg, hb, hmax, hmin, htemp]
  rw [show ((128:ℚ) + 128) / 2 = 128 by norm_num]
  rw [show ((128:ℚ) - 128) ^ 2 + ((128:ℚ) - 128) ^ 2 + ((128:ℚ) - 128) ^ 2
    = 0 by norm_num]
  rw [jsSqrt_zero]
  norm_num [min_def, max_def]

/-- C9 witness: the single-pixel mid-gray sample realizes the Scenario-C
targets. -/
theorem claim9_witness :
    (analyzeLighting [grayPixel] initialLighting initialLighting).1 =
      ⟨1, 9/10, 9/10, 6000⟩ :=
  claim9_midgray_targets [grayPixel] initialLighting initialLighting
    (by simp) (by simp)

/-- C10: for every nonempty sample with `avgR + avgB > 0`, the color
balance lies in [1/2, 1], hence the target temperature
`4000 + colorBalance × 4000` lies in [6000 K, 8000 K] — never more than
500 K below the 6500 K neutral point even for a strongly red-dominant
scene — and therefore the warm-tint branch of `drawRotatedOverlay`
(deadband 5%) is reachable only for temperatures in [6000, 6175). -/
theorem claim10_temperature_range (pixels : List RGB) (_hne : pixels ≠ [])
    (hpos : 0 < avgROf pixels + avgBOf pixels) :
    ((1:ℚ)/2 ≤ colorBalanceOf pixels ∧ colorBalanceOf pixels ≤ 1) ∧
    (6000 ≤ targetTemperatureOf pixels ∧ targetTemperatureOf pixels ≤ 8000) ∧
    (temperatureTint (targetTemperatureOf pixels) = some false →
      6000 ≤ targetTemperatureOf pixels ∧ targetTemperatureOf pixels < 6175) := by
  have ha : 0 ≤ avgROf pixels := avgROf_nonneg pixels
  have hb : 0 ≤ avgBOf pixels := avgBOf_nonneg pixels
  have hcb : (1:ℚ)/2 ≤ colorBalanceOf pixels ∧ colorBalanceOf pixels ≤ 1 := by
    rw [colorBalanceOf]
    split
    · constructor
      · rw [le_div_iff₀ hpos]; linarith
      · rw [div_le_one hpos]; linarith
    · constructor
      · rw [le_div_iff₀ hpos]; linarith
      · rw [div_le_one hpos]; linarith
  have htlo : 6000 ≤ targetTemperatureOf pixels := by
    rw [targetTemperatureOf]; linarith [hcb.1]
  have hthi : targetTemperatureOf pixels ≤ 8000 := by
    rw [targetTemperatureOf]; linarith [hcb.2]
  refine ⟨hcb, ⟨htlo, hthi⟩, ?_⟩
  intro htint
  refine ⟨htlo, ?_⟩
  rw [temperatureTint] at htint
  split at htint
  · rename_i hcond
    have hfalse : ¬ (0 < (targetTemperatureOf pixels - 6500) / 6500) := by
      intro hgt
      rw [Option.some.injEq, decide_eq_false_iff_not] at htint
      exact htint hgt
    push_neg at hfalse
    have habs : |((targetTemperatureOf pixels - 6500) / 6500)| =
        -((targetTemperatureOf pixels - 6500) / 6500) := abs_of_nonpos hfalse
    rw [habs] at hcond
    have h65 : targetTemperatureOf pixels - 6500 < -325 := by
      have h1 : (1:ℚ)/20 < -((targetTemperatureOf pixels - 6500) / 6500) := hcond
      have h2 : (targetTemperatureOf pixels - 6500) / 6500 < -(1/20) := by linarith
      calc targetTemperatureOf pixels - 6500
          = ((targetTemperatureOf pixels - 6500) / 6500) * 6500 := by ring
        _ < -(1/20) * 6500 := by
            apply mul_lt_mul_of_pos_right h2
            norm_num
        _ = -325 := by norm_num
    linarith
  · exact Option.noConfusion htint

/-- C10 witness: the one-pixel strongly red-dominant sample has
colorBalance 1 and target temperature 8000 K — inside the claimed range
and on the cool side despite the warm scene. -/
theorem claim10_witness :
    0 < avgROf [redPixel] + avgBOf [redPixel] ∧
    (6000 ≤ targetTemperatureOf [redPixel] ∧
      targetTemperatureOf [redPixel] ≤ 8000) ∧
    targetTemperatureOf [redPixel] = 8000 := by
  have hpos : 0 < avgROf [redPixel] + avgBOf [redPixel] := by
    norm_num [avgROf, avgBOf, totalR, totalB, redPixel,
      List.foldl_cons, List.foldl_nil]
  refine ⟨hpos, (claim10_temperature_range [redPixel] (by simp) hpos).2.1, ?_⟩
  norm_num [targetTemperatureOf, colorBalanceOf, avgROf, avgBOf, totalR,
    totalB, redPixel, List.foldl_cons, List.foldl_nil]

/-- C7 counterexample: for a negative index with landmarks present,
`getLandmark` does not return null — the unguarded `landmarks[index].x`
access throws (the source only guards `index >= landmarks.length`). -/
theorem claim7_counterexample :
    getLandmark (some [⟨0, 0⟩]) (-1) 100 100 = Except.error () ∧
    getLandmark (some [⟨0, 0⟩]) (-1) 100 100 ≠ Except.ok none := by
  constructor
  · rfl
  · intro h
    exact Except.noConfusion h

/-- C7 (amended): `getLandmark` returns null when the landmarks are
absent, or when the index is at least the landmark count; for an index
within range it returns the landmark's normalized coordinate scaled by
the given canvas dimensions; but for a NEGATIVE index with landmarks
present it does not return null — the member access on the `undefined`
array element throws. -/
theorem claim7_getLandmark_contract (lm : List Point) (i : ℤ) (cw ch : ℚ) :
    (getLandmark none i cw ch = Except.ok none) ∧
    ((lm.length : ℤ) ≤ i → getLandmark (some lm) i cw ch = Except.ok none) ∧
    (i < 0 → getLandmark (some lm) i cw ch = Except.error ()) ∧
    (0 ≤ i → ∀ p : Point, lm[i.toNat]? = some p →
      getLandmark (some lm) i cw ch =
        Except.ok (some ⟨p.x * cw, p.y * ch⟩)) := by
  refine ⟨rfl, ?_, ?_, ?_⟩
  · intro h
    simp only [getLandmark]
    rw [if_pos h]
  · intro hneg
    have hlen : ¬ (lm.length : ℤ) ≤ i := by omega
    simp only [getLandmark, jsArrayGet]
    rw [if_neg hlen, if_pos hneg]
  · intro hge p hp
    have h2 : i.toNat < lm.length := by
      by_contra hc
      push_neg at hc
      rw [List.getElem?_eq_none hc] at hp
      exact Option.noConfusion hp
    have hlen : ¬ (lm.length : ℤ) ≤ i := by
      intro h
      have h3 := Int.toNat_le_toNat h
      simp only [Int.toNat_ofNat] at h3
      omega
    simp only [getLandmark, jsArrayGet]
    rw [if_neg hlen, if_neg (by omega), hp]

/-- C7 witness: concrete instantiations of the amended contract — a
one-point landmark list at normalized (1/2, 1/2) on a 100×100 canvas
yields the pixel point (50, 50) at index 0, null at index 7, and a throw
at index −3. -/
theorem claim7_witness :
    getLandmark (some [⟨1/2, 1/2⟩]) 0 100 100 = Except.ok (some ⟨50, 50⟩) ∧
    getLandmark (some [⟨1/2, 1/2⟩]) 7 100 100 = Except.ok none ∧
    getLandmark (some [⟨1/2, 1/2⟩]) (-3) 100 100 = Except.error () := by
  refine ⟨?_, ?_, ?_⟩
  · have h := (claim7_getLandmark_contract [⟨1/2, 1/2⟩] 0 100 100).2.2.2
      (by decide) ⟨1/2, 1/2⟩ rfl
    rw [h]
    simp only [Except.ok.injEq, Option.some.injEq, Point.mk.injEq]
    norm_num
  · exact (claim7_getLandmark_contract [⟨1/2, 1/2⟩] 7 100 100).2.1 (by decide)
  · exact (claim7_getLandmark_contract [⟨1/2, 1/2⟩] (-3) 100 100).2.2.1 (by decide)

end VirtualTryOn
